import Mathlib

/-!
Verification of the ETL-Warehouse repository (two Python scripts) against its
specification.

The repository consists of `data_generator.py` — a driver that reads one
integer command-line argument `n`, calls `print_client_support()` `n` times
(each call serializes one randomized client-support record as a JSON line on
standard output), then prints a trailing blank line — and `load_key.py`, which
previews the `SNOWFLAKE_PRIVATE_KEY` environment variable.

Shallow embedding conventions:
* Randomness is made explicit: every random draw the Python code performs is a
  field of an `Entropy` structure, and the library primitives
  (`random.getrandbits`, `Faker.random_int`, `Faker.random_element`,
  `optional_faker.none_or`, …) are modelled as functions of those entropy
  values, reflecting the ranges the libraries guarantee.
* Standard output is a `List Char`; each `sys.stdout.write`/`print` appends.
* Process exit is an explicit exit code in a result structure; an unhandled
  Python exception (IndexError from `args[0]`, ValueError from `int(...)`)
  is exit code 1 with nothing written to stdout.
-/

/-- Lowercase hexadecimal digit for `n % 16` (model of the digit characters
Python uses for `hex`/`%x` formatting). -/
def hexDigit (n : Nat) : Char := Nat.digitChar (n % 16)

/-- Decimal digit characters of `n`, most significant first (as Python's
`str(int)` renders a nonnegative integer). -/
def natDec (n : Nat) : List Char := Nat.toDigits 10 n

/-- Left-pad a digit list with `'0'` to width `w` (Python `"%05d"`-style
zero fill). -/
def padZeros (w : Nat) (ds : List Char) : List Char :=
  List.replicate (w - ds.length) '0' ++ ds

/-- Python `hex(n)` for a nonnegative int: `"0x"` prefix followed by lowercase
hexadecimal digits (`hex(0) = "0x0"`). -/
def pyHex (n : Nat) : String :=
  String.mk ('0' :: 'x' :: Nat.toDigits 16 n)

/-- Python `date(y, m, d).isoformat()`: `YYYY-MM-DD` with zero padding. -/
def isoDate (y m d : Nat) : String :=
  String.mk (padZeros 4 (natDec y) ++ '-' :: padZeros 2 (natDec m)
    ++ '-' :: padZeros 2 (natDec d))

/-- Hexadecimal value of one digit character (inverse of `hexDigit` on
`0`–`9`, `a`–`f`; other characters map to 0). -/
def hexVal (c : Char) : Nat :=
  if '0' ≤ c ∧ c ≤ '9' then c.toNat - '0'.toNat
  else if 'a' ≤ c ∧ c ≤ 'f' then c.toNat - 'a'.toNat + 10
  else 0

/-- Model of `str(uuid.uuid4())` as a function of the 128 random bits it
draws: 32 lowercase hex digits grouped 8-4-4-4-12, with the version nibble
(13th digit) forced to `'4'` and the variant nibble (17th digit) forced into
`8`–`b`, exactly as `uuid.uuid4` overwrites those bits. -/
def uuid4Str (seed : Nat) : String :=
  let h := padZeros 32 (Nat.toDigits 16 (seed % 2 ^ 128))
  let h := h.set 12 '4'
  let h := h.set 16 (Nat.digitChar (8 + hexVal (h.getD 16 '0') % 4))
  String.mk (h.take 8 ++ '-' :: (h.drop 8).take 4 ++ '-' :: (h.drop 12).take 4
    ++ '-' :: (h.drop 16).take 4 ++ '-' :: h.drop 20)

/-- Model of `optional_faker`'s `Faker.none_or`: the library returns either
`None` or the given value depending on a random coin; the coin is the explicit
`flag` here. -/
def none_or (flag : Bool) (x : α) : Option α := if flag then some x else none

/-- Model of the Faker `en_US` provider's state → postal-code-range table
(the data behind `state_abbr` and `postalcode_in_state`): each abbreviation
the provider can emit, with the inclusive ZIP range it assigns to that state.
The range values are representative of the provider's table; the claims only
depend on each abbreviation having a well-formed range (`lo ≤ hi`). -/
def statesPostcode : List (String × Nat × Nat) :=
  [("AL", 35004, 36925), ("AK", 99501, 99950), ("AZ", 85001, 86556),
   ("AR", 71601, 72959), ("CA", 90001, 96162), ("CO", 80001, 81658),
   ("CT", 6001, 6928), ("DE", 19701, 19980), ("DC", 20001, 20039),
   ("FL", 32004, 34997), ("GA", 30001, 31999), ("HI", 96701, 96898),
   ("ID", 83201, 83876), ("IL", 60001, 62999), ("IN", 46001, 47997),
   ("IA", 50001, 52809), ("KS", 66002, 67954), ("KY", 40003, 42788),
   ("LA", 70001, 71497), ("ME", 3901, 4992), ("MD", 20331, 21930),
   ("MA", 1001, 2791), ("MI", 48001, 49971), ("MN", 55001, 56763),
   ("MS", 38601, 39776), ("MO", 63001, 65899), ("MT", 59001, 59937),
   ("NE", 68001, 69367), ("NV", 88901, 89883), ("NH", 3031, 3897),
   ("NJ", 7001, 8989), ("NM", 87001, 88441), ("NY", 10001, 14975),
   ("NC", 27006, 28909), ("ND", 58001, 58856), ("OH", 43001, 45999),
   ("OK", 73001, 74966), ("OR", 97001, 97920), ("PA", 15001, 19640),
   ("RI", 2801, 2940), ("SC", 29001, 29948), ("SD", 57001, 57799),
   ("TN", 37010, 38589), ("TX", 75001, 79999), ("UT", 84001, 84784),
   ("VT", 5001, 5907), ("VA", 22001, 24658), ("WA", 98001, 99403),
   ("WV", 24701, 26886), ("WI", 53001, 54990), ("WY", 82001, 83128)]

/-- Model of `fake.state_abbr()`: a uniform draw from the abbreviations in
the provider's table, indexed by the entropy value. -/
def state_abbr (seed : Nat) : String :=
  (statesPostcode.get ⟨seed % statesPostcode.length,
    Nat.mod_lt _ (by decide)⟩).1

/-- The postal-code range the Faker provider associates with a state
abbreviation (`none` for strings that are not abbreviations in its table). -/
def postcodeRange (st : String) : Option (Nat × Nat) :=
  (statesPostcode.find? (fun p => p.1 == st)).map Prod.snd

/-- A five-digit zero-filled postal-code string. -/
def pad5 (n : Nat) : String := String.mk (padZeros 5 (natDec n))

/-- Model of `fake.postalcode_in_state(st)`: a uniform draw from the state's
inclusive ZIP range, zero-filled to five digits.  For a string outside the
table the library raises; that branch is unreachable from the generator
because `state_abbr` only produces table keys (proved below), and is modelled
as `""`. -/
def postalcode_in_state (st : String) (seed : Nat) : String :=
  match postcodeRange st with
  | some (lo, hi) => pad5 (lo + seed % (hi + 1 - lo))
  | none => ""

/-- The fixed 29-entry inventory list of vehicle model names
(`data_generator.py`, module level). -/
def inventory : List String :=
  ["Peugeot 208", "Peugeot 3008", "Citroen C3", "Renault Megane",
   "Fiat 500e", "Maserati Grecale Folgore", "Renault Mégane E-Tech",
   "Peugeot e-208", "Peugeot e-3008", "Citroen ë-C4", "Citroen Ami",
   "DS 3 E-Tense", "DS 4 E-Tense", "DS 7 E-Tense", "DS 9 E-Tense",
   "Fiat 600e", "Jeep Avenger EV", "Opel Mokka-e", "Opel Corsa-e",
   "Opel Astra Electric", "Peugeot e-2008", "Citroen ë-Berlingo",
   "Fiat E-Ulysse", "Peugeot e-Rifter", "Jeep Recon EV", "Jeep Wagoneer S",
   "Maserati GranTurismo Folgore", "Maserati MC20 Folgore",
   "Opel Zafira-e Life"]

/-- The nested `address` value of a record: `{street_address, city, state,
postalcode}`. -/
structure Address where
  street_address : String
  city : String
  state : String
  postalcode : String
  deriving DecidableEq, Repr

/-- The nested `emergency_contact` value of a record: `{name, phone}`. -/
structure EmergencyContact where
  name : String
  phone : String
  deriving DecidableEq, Repr

/-- One client-support record, with the fields of the dict built by
`print_client_support`, in insertion order. -/
structure Record where
  txid : String
  rfid : String
  item : String
  purchase_time : String
  expiration_time : String
  days : Nat
  name : String
  address : Option Address
  phone : Option String
  email : Option String
  emergency_contact : Option EmergencyContact
  deriving DecidableEq, Repr

/-- The entropy one call to `print_client_support` consumes: one field per
random draw the Python code makes (numeric seeds for the numeric draws,
the free-text draws and the current time as opaque strings, one coin per
`none_or`). -/
structure Entropy where
  uuidSeed : Nat
  rfidSeed : Nat
  itemSeed : Nat
  nowIso : String
  daysSeed : Nat
  nameStr : String
  stateSeed : Nat
  streetStr : String
  cityStr : String
  zipSeed : Nat
  addrFlag : Bool
  phoneStr : String
  phoneFlag : Bool
  emailStr : String
  emailFlag : Bool
  ecNameStr : String
  ecPhoneStr : String
  ecFlag : Bool

/-- An all-zero / all-empty entropy value, used to instantiate theorems at a
concrete input. -/
def entropy0 : Entropy :=
  { uuidSeed := 0, rfidSeed := 0, itemSeed := 0, nowIso := "", daysSeed := 0,
    nameStr := "", stateSeed := 0, streetStr := "", cityStr := "", zipSeed := 0,
    addrFlag := false, phoneStr := "", phoneFlag := false, emailStr := "",
    emailFlag := false, ecNameStr := "", ecPhoneStr := "", ecFlag := false }

/-- The record `print_client_support` builds (the `client_support` dict of
`data_generator.py`, lines 28–42), as a function of the entropy it draws.
`state` is drawn once and used both as the `address.state` field and as the
argument of `postalcode_in_state`, exactly as in the source. -/
def generate_record (e : Entropy) : Record :=
  let st := state_abbr e.stateSeed
  { txid := uuid4Str e.uuidSeed
    rfid := pyHex (e.rfidSeed % 2 ^ 96)
    item := inventory.get ⟨e.itemSeed % inventory.length,
      Nat.mod_lt _ (by decide)⟩
    purchase_time := e.nowIso
    expiration_time := isoDate 2023 6 1
    days := 1 + e.daysSeed % 7
    name := e.nameStr
    address := none_or e.addrFlag
      { street_address := e.streetStr, city := e.cityStr, state := st,
        postalcode := postalcode_in_state st e.zipSeed }
    phone := none_or e.phoneFlag e.phoneStr
    email := none_or e.emailFlag e.emailStr
    emergency_contact := none_or e.ecFlag
      { name := e.ecNameStr, phone := e.ecPhoneStr } }

/-- A `\uXXXX` JSON escape for the 16-bit value `n`. -/
def uEsc (n : Nat) : List Char :=
  ['\\', 'u', hexDigit (n / 4096), hexDigit (n / 256), hexDigit (n / 16),
   hexDigit n]

/-- JSON escaping of one character as `rapidjson.dumps` performs it
(default `ensure_ascii`): two-character escapes for the standard control
characters, `\uXXXX` for other controls and for every non-ASCII character
(surrogate pairs beyond the BMP), the character itself otherwise. -/
def escapeChar (c : Char) : List Char :=
  if c = '"' then ['\\', '"']
  else if c = '\\' then ['\\', '\\']
  else if c = '\n' then ['\\', 'n']
  else if c = '\r' then ['\\', 'r']
  else if c = '\t' then ['\\', 't']
  else if c = Char.ofNat 8 then ['\\', 'b']
  else if c = Char.ofNat 12 then ['\\', 'f']
  else if c.toNat < 32 then uEsc c.toNat
  else if c.toNat ≤ 126 then [c]
  else if c.toNat < 65536 then uEsc c.toNat
  else uEsc (55296 + (c.toNat - 65536) / 1024)
    ++ uEsc (56320 + (c.toNat - 65536) % 1024)

/-- A JSON string literal: quote, escaped characters, quote. -/
def jsonStr (s : String) : List Char :=
  '"' :: s.data.flatMap escapeChar ++ ['"']

/-- A JSON serialization of an optional value: `null` when absent. -/
def jsonOpt (f : α → List Char) : Option α → List Char
  | none => ['n', 'u', 'l', 'l']
  | some a => f a

/-- JSON serialization of the nested address object, keys in insertion
order. -/
def jsonAddress (a : Address) : List Char :=
  '{' :: jsonStr "street_address" ++ ':' :: jsonStr a.street_address
  ++ ',' :: jsonStr "city" ++ ':' :: jsonStr a.city
  ++ ',' :: jsonStr "state" ++ ':' :: jsonStr a.state
  ++ ',' :: jsonStr "postalcode" ++ ':' :: jsonStr a.postalcode
  ++ ['}']

/-- JSON serialization of the nested emergency-contact object. -/
def jsonContact (c : EmergencyContact) : List Char :=
  '{' :: jsonStr "name" ++ ':' :: jsonStr c.name
  ++ ',' :: jsonStr "phone" ++ ':' :: jsonStr c.phone
  ++ ['}']

/-- Model of `json.dumps(client_support)`: one JSON object, keys in the dict's
insertion order (`rapidjson` emits the compact form, no added whitespace). -/
def jsonDumps (r : Record) : List Char :=
  '{' :: jsonStr "txid" ++ ':' :: jsonStr r.txid
  ++ ',' :: jsonStr "rfid" ++ ':' :: jsonStr r.rfid
  ++ ',' :: jsonStr "item" ++ ':' :: jsonStr r.item
  ++ ',' :: jsonStr "purchase_time" ++ ':' :: jsonStr r.purchase_time
  ++ ',' :: jsonStr "expiration_time" ++ ':' :: jsonStr r.expiration_time
  ++ ',' :: jsonStr "days" ++ ':' :: natDec r.days
  ++ ',' :: jsonStr "name" ++ ':' :: jsonStr r.name
  ++ ',' :: jsonStr "address" ++ ':' :: jsonOpt jsonAddress r.address
  ++ ',' :: jsonStr "phone" ++ ':' :: jsonOpt jsonStr r.phone
  ++ ',' :: jsonStr "email" ++ ':' :: jsonOpt jsonStr r.email
  ++ ',' :: jsonStr "emergency_contact"
    ++ ':' :: jsonOpt jsonContact r.emergency_contact
  ++ ['}']

/-- Output of `print_client_support()`: serialize one generated record and write it
followed by a newline (`sys.stdout.write(json.dumps(...) + '\n')`). -/
def print_client_support (e : Entropy) : List Char :=
  jsonDumps (generate_record e) ++ ['\n']

/-- Split a character stream at every `'\n'` (the splitter underlying
`str.split("\n")`): always returns one more segment than there are
newlines. -/
def splitNl : List Char → List (List Char)
  | [] => [[]]
  | c :: cs =>
    if c = '\n' then [] :: splitNl cs
    else
      match splitNl cs with
      | [] => [[c]]
      | l :: ls => (c :: l) :: ls

/-- The lines of a text stream, Python `str.splitlines` style: segments
between newlines, with no phantom empty line after a trailing newline and
`[]` for the empty stream. -/
def splitlines (cs : List Char) : List (List Char) :=
  if (splitNl cs).getLast? = some [] then (splitNl cs).dropLast
  else splitNl cs

/-- Python whitespace accepted around an integer literal by `int(str)`. -/
def pySpace (c : Char) : Bool :=
  c = ' ' || c = '\t' || c = '\n' || c = '\r' || c = Char.ofNat 11
    || c = Char.ofNat 12

/-- Digit run with optional single underscores between digits, as `int(str)`
accepts: accumulates the value, rejects trailing or doubled underscores. -/
def pyDigits : List Char → Nat → Option Nat
  | [], acc => some acc
  | c :: cs, acc =>
    if c.isDigit then pyDigits cs (acc * 10 + (c.toNat - '0'.toNat))
    else if c = '_' then
      match cs with
      | c2 :: cs2 =>
        if c2.isDigit then pyDigits cs2 (acc * 10 + (c2.toNat - '0'.toNat))
        else none
      | [] => none
    else none

/-- Digit run that must start with a digit (no leading underscore). -/
def pyDigitsStart : List Char → Option Nat
  | [] => none
  | c :: cs => if c.isDigit then pyDigits (c :: cs) 0 else none

/-- Python `int(s)` for a string argument: strip surrounding whitespace,
optional sign, then digits (underscore separators allowed); `none` models the
`ValueError` raised on anything else. -/
def pyInt (s : String) : Option Int :=
  let t := ((s.data.dropWhile pySpace).reverse.dropWhile pySpace).reverse
  match t with
  | '+' :: rest => (pyDigitsStart rest).map Int.ofNat
  | '-' :: rest => (pyDigitsStart rest).map (fun n => -(n : Int))
  | rest => (pyDigitsStart rest).map Int.ofNat

/-- Outcome of running a script: what it wrote to standard output and
standard error, and its exit code. -/
structure RunResult where
  stdout : List Char
  stderr : List Char
  exitCode : Nat
  deriving DecidableEq, Repr

/-- The stream the generator's loop writes for a parsed count `n`: one
`print_client_support` line per iteration of `range(n)` (empty for `n < 0`),
then the `'\n'` of the final `print('')`. -/
def driverStream (n : Int) (es : Nat → Entropy) : List Char :=
  (((List.range n.toNat).map (fun i => print_client_support (es i))).flatten)
    ++ ['\n']

/-- The `__main__` block of `data_generator.py`: `args = sys.argv[1:]`;
`int(args[0])` — an IndexError (no argument) or ValueError (unparsable
argument) is an unhandled exception, which terminates the process with exit
code 1 before anything is written; otherwise the loop runs and the process
exits 0. -/
def driverRun (args : List String) (es : Nat → Entropy) : RunResult :=
  match args with
  | [] => { stdout := [], stderr := [], exitCode := 1 }
  | a :: _ =>
    match pyInt a with
    | none => { stdout := [], stderr := [], exitCode := 1 }
    | some n => { stdout := driverStream n es, stderr := [], exitCode := 0 }

/-- Escape one character inside a Python `repr` string delimited by quote
character `q`. -/
def pyReprEscape (q : Char) (c : Char) : List Char :=
  if c = '\\' then ['\\', '\\']
  else if c = q then ['\\', q]
  else if c = '\n' then ['\\', 'n']
  else if c = '\r' then ['\\', 'r']
  else if c = '\t' then ['\\', 't']
  else if c.toNat < 32 ∨ c.toNat = 127 then
    ['\\', 'x', hexDigit (c.toNat / 16), hexDigit c.toNat]
  else [c]

/-- Model of Python `repr` on a string: single-quoted unless the value
contains a single quote and no double quote, with backslash escapes. -/
def pyRepr (s : String) : List Char :=
  let q := if s.data.contains '\'' && !(s.data.contains '"') then '"' else '\''
  q :: s.data.flatMap (pyReprEscape q) ++ [q]

/-- The first-60-characters slice `pem[:60]` (a total operation in Python:
shorter strings are returned whole, never padded). -/
def keyPreviewSlice (pem : String) : String := String.mk (pem.data.take 60)

/-- Run of `load_key.py`: read `SNOWFLAKE_PRIVATE_KEY` from the environment; if it
is unset, `sys.exit("SNOWFLAKE_PRIVATE_KEY not set")` prints that message and
a newline on standard error and exits with code 1; otherwise
`print("First 60 chars:", repr(pem[:60]))` writes the preview line on
standard output and the script exits 0. -/
def loadKeyRun (pem : Option String) : RunResult :=
  match pem with
  | none =>
    { stdout := [], stderr := "SNOWFLAKE_PRIVATE_KEY not set".data ++ ['\n'],
      exitCode := 1 }
  | some pem =>
    { stdout := "First 60 chars: ".data ++ pyRepr (keyPreviewSlice pem)
        ++ ['\n'],
      stderr := [], exitCode := 0 }

/-- The pattern `p` occurs contiguously inside `l` (a "message containing"
relation on character streams). -/
def occursIn (p l : List Char) : Prop := ∃ u v, l = u ++ p ++ v

/-- A postal-code string is valid for a state abbreviation when it is the
zero-filled form of a number inside the ZIP range the Faker provider assigns
to that state. -/
def postcodeValidFor (z st : String) : Prop :=
  ∃ lo hi, postcodeRange st = some (lo, hi) ∧
    ∃ k, lo ≤ k ∧ k ≤ hi ∧ z = pad5 k

/-- An entropy value whose address coin tells `none_or` to keep the address,
used to instantiate theorems about non-null addresses. -/
def entropy1 : Entropy := { entropy0 with addrFlag := true }

/-- The address value `print_client_support` builds before `none_or` decides
whether to keep it (the dict literal of `data_generator.py`, lines 36–38). -/
def generatedAddress (e : Entropy) : Address :=
  { street_address := e.streetStr, city := e.cityStr,
    state := state_abbr e.stateSeed,
    postalcode := postalcode_in_state (state_abbr e.stateSeed) e.zipSeed }

/-! ## Newline-freedom of serialized records

A serialized record is one line of output: none of the characters the JSON
encoder can produce is a raw newline. -/

/-- A character list containing no newline (one line of output). -/
def NlFree (l : List Char) : Prop := '\n' ∉ l

theorem nlFree_nil : NlFree [] := by
  intro h; cases h

theorem nlFree_append {a b : List Char} (ha : NlFree a) (hb : NlFree b) :
    NlFree (a ++ b) := by
  intro h
  rcases List.mem_append.mp h with h | h
  exacts [ha h, hb h]

theorem nlFree_cons {c : Char} {l : List Char} (hc : c ≠ '\n')
    (hl : NlFree l) : NlFree (c :: l) := by
  intro h
  rcases List.mem_cons.mp h with h | h
  · exact hc h.symm
  · exact hl h

theorem digitChar_eq_star {n : Nat} (h : 16 ≤ n) : Nat.digitChar n = '*' := by
  unfold Nat.digitChar
  repeat rw [if_neg (by omega)]

theorem digitChar_ne_nl (n : Nat) : Nat.digitChar n ≠ '\n' := by
  by_cases h : n < 16
  · interval_cases n <;> decide
  · rw [digitChar_eq_star (by omega)]
    decide

theorem hexDigit_ne_nl (n : Nat) : hexDigit n ≠ '\n' := digitChar_ne_nl _

theorem nlFree_toDigitsCore (b : Nat) (fuel : Nat) :
    ∀ (n : Nat) (ds : List Char), NlFree ds →
      NlFree (Nat.toDigitsCore b fuel n ds) := by
  induction fuel with
  | zero => intro n ds h; exact h
  | succ fuel ih =>
    intro n ds h
    simp only [Nat.toDigitsCore]
    split
    · exact nlFree_cons (digitChar_ne_nl _) h
    · exact ih _ _ (nlFree_cons (digitChar_ne_nl _) h)

theorem nlFree_toDigits (b n : Nat) : NlFree (Nat.toDigits b n) :=
  nlFree_toDigitsCore b _ _ _ nlFree_nil

theorem nlFree_natDec (n : Nat) : NlFree (natDec n) := nlFree_toDigits 10 n

theorem nlFree_uEsc (n : Nat) : NlFree (uEsc n) :=
  nlFree_cons (by decide) (nlFree_cons (by decide)
    (nlFree_cons (hexDigit_ne_nl _) (nlFree_cons (hexDigit_ne_nl _)
      (nlFree_cons (hexDigit_ne_nl _)
        (nlFree_cons (hexDigit_ne_nl _) nlFree_nil)))))

set_option maxHeartbeats 1000000 in
theorem nlFree_escapeChar (c : Char) : NlFree (escapeChar c) := by
  unfold escapeChar
  split_ifs with h1 h2 h3 h4 h5 h6 h7 h8 h9 h10
  · exact nlFree_cons (by decide) (nlFree_cons (by decide) nlFree_nil)
  · exact nlFree_cons (by decide) (nlFree_cons (by decide) nlFree_nil)
  · exact nlFree_cons (by decide) (nlFree_cons (by decide) nlFree_nil)
  · exact nlFree_cons (by decide) (nlFree_cons (by decide) nlFree_nil)
  · exact nlFree_cons (by decide) (nlFree_cons (by decide) nlFree_nil)
  · exact nlFree_cons (by decide) (nlFree_cons (by decide) nlFree_nil)
  · exact nlFree_cons (by decide) (nlFree_cons (by decide) nlFree_nil)
  · exact nlFree_uEsc _
  · intro hm
    rw [List.mem_singleton] at hm
    rw [← hm] at h8
    exact h8 (by decide)
  · exact nlFree_uEsc _
  · exact nlFree_append (nlFree_uEsc _) (nlFree_uEsc _)

theorem nlFree_escString (s : String) :
    NlFree (s.data.flatMap escapeChar) := by
  intro h
  rcases List.mem_flatMap.mp h with ⟨c, _, hc⟩
  exact nlFree_escapeChar c hc

theorem nlFree_jsonStr (s : String) : NlFree (jsonStr s) :=
  nlFree_cons (by decide)
    (nlFree_append (nlFree_escString s)
      (nlFree_cons (by decide) nlFree_nil))

theorem nlFree_jsonOpt {α : Type} {f : α → List Char}
    (hf : ∀ a, NlFree (f a)) (o : Option α) : NlFree (jsonOpt f o) := by
  cases o with
  | none =>
    intro h
    simp [jsonOpt] at h
  | some a => exact hf a

set_option maxHeartbeats 1600000 in
theorem nlFree_jsonAddress (a : Address) : NlFree (jsonAddress a) := by
  unfold jsonAddress
  repeat' first
    | apply nlFree_append
    | apply nlFree_cons (by decide)
  all_goals first
    | exact nlFree_nil
    | exact nlFree_escString _

set_option maxHeartbeats 1600000 in
theorem nlFree_jsonContact (c : EmergencyContact) :
    NlFree (jsonContact c) := by
  unfold jsonContact
  repeat' first
    | apply nlFree_append
    | apply nlFree_cons (by decide)
  all_goals first
    | exact nlFree_nil
    | exact nlFree_escString _

set_option maxHeartbeats 1600000 in
theorem nlFree_jsonDumps (r : Record) : NlFree (jsonDumps r) := by
  unfold jsonDumps
  repeat' first
    | apply nlFree_append
    | apply nlFree_cons (by decide)
  all_goals first
    | exact nlFree_nil
    | exact nlFree_escString _
    | exact nlFree_natDec _
    | exact nlFree_jsonOpt nlFree_jsonAddress _
    | exact nlFree_jsonOpt nlFree_jsonStr _
    | exact nlFree_jsonOpt nlFree_jsonContact _

set_option maxHeartbeats 1600000 in
theorem jsonDumps_ne_nil (r : Record) : jsonDumps r ≠ [] := by
  unfold jsonDumps
  repeat' apply List.append_ne_nil_of_left_ne_nil
  exact List.cons_ne_nil _ _

/-! ## Splitting the output stream into lines -/

theorem splitNl_append_line {l : List Char} (hl : NlFree l)
    (rest : List Char) :
    splitNl (l ++ '\n' :: rest) = l :: splitNl rest := by
  induction l with
  | nil => simp [splitNl]
  | cons c l ih =>
    have hc : c ≠ '\n' := fun h => hl (h ▸ List.mem_cons_self c l)
    have hl' : NlFree l := fun h => hl (List.mem_cons_of_mem _ h)
    show splitNl (c :: (l ++ '\n' :: rest)) = (c :: l) :: splitNl rest
    rw [splitNl, if_neg hc, ih hl']

theorem splitNl_flatten {ls : List (List Char)}
    (h : ∀ x ∈ ls, NlFree x) (tail : List Char) :
    splitNl ((ls.map (fun l => l ++ ['\n'])).flatten ++ tail)
      = ls ++ splitNl tail := by
  induction ls with
  | nil => simp
  | cons x ls ih =>
    have hx : NlFree x := h x (List.mem_cons_self _ _)
    have h' : ∀ y ∈ ls, NlFree y := fun y hy => h y (List.mem_cons_of_mem _ hy)
    simp only [List.map_cons, List.flatten_cons, List.append_assoc,
      List.singleton_append, List.cons_append]
    rw [splitNl_append_line hx]
    simp only [List.nil_append]
    rw [ih h']

/-- The stream the driver writes for count `n` splits into exactly the
serialized records followed by one blank line. -/
theorem splitlines_driverStream (n : Int) (es : Nat → Entropy) :
    splitlines (driverStream n es)
      = (List.range n.toNat).map (fun i => jsonDumps (generate_record (es i)))
        ++ [[]] := by
  have hmap : (List.range n.toNat).map (fun i => print_client_support (es i))
      = ((List.range n.toNat).map
          (fun i => jsonDumps (generate_record (es i)))).map
            (fun l => l ++ ['\n']) := by
    simp [print_client_support, List.map_map, Function.comp]
  have hnl : ∀ x ∈ (List.range n.toNat).map
      (fun i => jsonDumps (generate_record (es i))), NlFree x := by
    intro x hx
    rcases List.mem_map.mp hx with ⟨i, _, rfl⟩
    exact nlFree_jsonDumps _
  unfold splitlines driverStream
  rw [hmap, splitNl_flatten hnl, show splitNl ['\n'] = [[], []] from by decide,
    show ((List.range n.toNat).map
        (fun i => jsonDumps (generate_record (es i)))) ++ [[], []]
      = (((List.range n.toNat).map
          (fun i => jsonDumps (generate_record (es i)))) ++ [[]]) ++ [[]]
      from by simp]
  simp [List.getLast?_concat, List.dropLast_concat]

example : (generate_record entropy0).days = 1 := by decide
example : (generate_record entropy0).expiration_time = "2023-06-01" := by decide
example : postalcode_in_state "AL" 0 = "35004" := by decide
example : pyInt "3" = some 3 := by decide
example : pyInt " -42 " = some (-42) := by decide
example : pyInt "1_2" = some 12 := by decide
example : pyInt "" = none := by decide
example : pyInt "x7" = none := by decide
example : pyInt "1_" = none := by decide
example : splitlines "ab\ncd\n\n".data = [['a','b'], ['c','d'], []] := by decide
example : splitlines [] = [] := by decide
example : pyRepr "a'b" = ['"', 'a', '\'', 'b', '"'] := by decide
example : (loadKeyRun (some "ab")).stdout =
    "First 60 chars: 'ab'\n".data := by decide

/-! ## Facts about the Faker state table -/

theorem statesPostcode_ranges_wf : ∀ p ∈ statesPostcode, p.2.1 ≤ p.2.2 := by
  decide

theorem postcodeRange_get (i : Fin statesPostcode.length) :
    ∃ lo hi, postcodeRange (statesPostcode.get i).1 = some (lo, hi)
      ∧ lo ≤ hi := by
  have hmem : statesPostcode.get i ∈ statesPostcode := List.get_mem _ _ _
  have hfind : (statesPostcode.find?
      (fun q => q.1 == (statesPostcode.get i).1)).isSome := by
    rw [List.find?_isSome]
    exact ⟨statesPostcode.get i, hmem, by simp⟩
  obtain ⟨q, hq⟩ := Option.isSome_iff_exists.mp hfind
  have hqmem := List.mem_of_find?_eq_some hq
  refine ⟨q.2.1, q.2.2, ?_, statesPostcode_ranges_wf q hqmem⟩
  unfold postcodeRange
  rw [hq]
  rfl

/-! ## The claims -/

/-- C1: for every integer n ≥ 0, running the generator driver with a single
command-line argument denoting n exits with status 0 and writes exactly n
non-blank JSON record lines, one per generated record, followed by exactly
one blank line. -/
theorem generator_driver_line_count (a : String) (n : Int) (es : Nat → Entropy)
    (hp : pyInt a = some n) (hn : 0 ≤ n) :
    (driverRun [a] es).exitCode = 0 ∧
    splitlines (driverRun [a] es).stdout
      = (List.range n.toNat).map (fun i => jsonDumps (generate_record (es i)))
        ++ [[]] ∧
    (((List.range n.toNat).map
        (fun i => jsonDumps (generate_record (es i)))).length : Int) = n ∧
    ∀ l ∈ (List.range n.toNat).map
        (fun i => jsonDumps (generate_record (es i))), l ≠ [] := by
  have hd : driverRun [a] es
      = { stdout := driverStream n es, stderr := [], exitCode := 0 } := by
    simp only [driverRun, hp]
  refine ⟨by rw [hd], ?_, ?_, ?_⟩
  · rw [hd]
    exact splitlines_driverStream n es
  · simp [Int.toNat_of_nonneg hn]
  · intro l hl
    rcases List.mem_map.mp hl with ⟨i, _, rfl⟩
    exact jsonDumps_ne_nil _

/-- Witness for C1 at the concrete invocation with argument `"3"`. -/
theorem generator_driver_line_count_w :
    (driverRun ["3"] (fun _ => entropy0)).exitCode = 0 ∧
    splitlines (driverRun ["3"] (fun _ => entropy0)).stdout
      = (List.range (Int.toNat 3)).map
          (fun _ => jsonDumps (generate_record entropy0)) ++ [[]] ∧
    (((List.range (Int.toNat 3)).map
        (fun _ => jsonDumps (generate_record entropy0))).length : Int) = 3 ∧
    ∀ l ∈ (List.range (Int.toNat 3)).map
        (fun _ => jsonDumps (generate_record entropy0)), l ≠ [] :=
  generator_driver_line_count "3" 3 (fun _ => entropy0) (by decide) (by decide)

/-- C3: a missing or non-integer count argument terminates the driver with a
non-zero exit status via the unhandled parsing fault, and no record is
emitted by any recovery path. -/
theorem generator_driver_bad_argument (args : List String) (es : Nat → Entropy)
    (h : args = [] ∨ ∃ a rest, args = a :: rest ∧ pyInt a = none) :
    (driverRun args es).exitCode ≠ 0 ∧ (driverRun args es).stdout = [] := by
  rcases h with rfl | ⟨a, rest, rfl, hpa⟩
  · exact ⟨Nat.one_ne_zero, rfl⟩
  · have hd : driverRun (a :: rest) es
        = { stdout := [], stderr := [], exitCode := 1 } := by
      simp only [driverRun, hpa]
    rw [hd]
    exact ⟨Nat.one_ne_zero, rfl⟩

/-- Witness for C3 at the concrete non-integer argument `"x"`. -/
theorem generator_driver_bad_argument_w :
    (driverRun ["x"] (fun _ => entropy0)).exitCode ≠ 0 ∧
    (driverRun ["x"] (fun _ => entropy0)).stdout = [] :=
  generator_driver_bad_argument ["x"] (fun _ => entropy0)
    (Or.inr ⟨"x", [], rfl, by decide⟩)

/-- C9: an argument parsing as a negative integer yields zero record lines,
still the single trailing blank line, and exit status 0. -/
theorem generator_driver_negative_count (a : String) (n : Int)
    (es : Nat → Entropy) (hp : pyInt a = some n) (hn : n < 0) :
    (driverRun [a] es).exitCode = 0 ∧
    (driverRun [a] es).stdout = ['\n'] ∧
    splitlines (driverRun [a] es).stdout = [[]] := by
  have hd : driverRun [a] es
      = { stdout := driverStream n es, stderr := [], exitCode := 0 } := by
    simp only [driverRun, hp]
  have h0 : n.toNat = 0 := Int.toNat_eq_zero.mpr (le_of_lt hn)
  have hs : driverStream n es = ['\n'] := by
    unfold driverStream
    rw [h0]
    rfl
  rw [hd, hs]
  exact ⟨rfl, rfl, by decide⟩

/-- Witness for C9 at the concrete argument `"-2"`. -/
theorem generator_driver_negative_count_w :
    (driverRun ["-2"] (fun _ => entropy0)).exitCode = 0 ∧
    (driverRun ["-2"] (fun _ => entropy0)).stdout = ['\n'] ∧
    splitlines (driverRun ["-2"] (fun _ => entropy0)).stdout = [[]] :=
  generator_driver_negative_count "-2" (-2) (fun _ => entropy0)
    (by decide) (by decide)

/-- C4: every record's `item` field is an element of the fixed inventory
list, and that list has exactly 29 entries. -/
theorem record_item_in_inventory (e : Entropy) :
    (generate_record e).item ∈ inventory ∧ inventory.length = 29 := by
  constructor
  · show inventory.get _ ∈ inventory
    exact List.get_mem _ _ _
  · rfl

/-- C5: every record's `days` field is an integer in the closed interval
[1, 7]. -/
theorem record_days_in_range (e : Entropy) :
    1 ≤ (generate_record e).days ∧ (generate_record e).days ≤ 7 := by
  have h : (generate_record e).days = 1 + e.daysSeed % 7 := rfl
  have hm : e.daysSeed % 7 < 7 := Nat.mod_lt _ (by decide)
  omega

/-- C6: every record's `rfid` field is the prefixed hexadecimal encoding of
a value below 2^96. -/
theorem record_rfid_hex96 (e : Entropy) :
    ∃ k, k < 2 ^ 96 ∧ (generate_record e).rfid = pyHex k :=
  ⟨e.rfidSeed % 2 ^ 96, Nat.mod_lt _ (by positivity), rfl⟩

/-- C7: every record's `expiration_time` field is the same fixed ISO-8601
date, `2023-06-01`, independent of the entropy drawn. -/
theorem record_expiration_constant (e : Entropy) :
    (generate_record e).expiration_time = isoDate 2023 6 1 ∧
    isoDate 2023 6 1 = "2023-06-01" :=
  ⟨rfl, by decide⟩

/-- C8: whenever a record's `address` is non-null, its postal code was
generated from the same state that fills its `state` field, and lies in the
ZIP range the provider assigns to that state. -/
theorem record_address_postalcode_valid (e : Entropy) (a : Address)
    (h : (generate_record e).address = some a) :
    postcodeValidFor a.postalcode a.state ∧
    a.postalcode = postalcode_in_state a.state e.zipSeed := by
  have ha : a = generatedAddress e := by
    have h2 : none_or e.addrFlag (generatedAddress e) = some a := h
    unfold none_or at h2
    cases hb : e.addrFlag
    · rw [hb] at h2
      simp at h2
    · rw [hb] at h2
      simp at h2
      exact h2.symm
  subst ha
  obtain ⟨lo, hi, hrange, hle⟩ := postcodeRange_get
    ⟨e.stateSeed % statesPostcode.length, Nat.mod_lt _ (by decide)⟩
  have hrange' : postcodeRange (state_abbr e.stateSeed) = some (lo, hi) :=
    hrange
  have hmod : e.zipSeed % (hi + 1 - lo) < hi + 1 - lo :=
    Nat.mod_lt _ (by omega)
  have hpost : postalcode_in_state (state_abbr e.stateSeed) e.zipSeed
      = pad5 (lo + e.zipSeed % (hi + 1 - lo)) := by
    unfold postalcode_in_state
    rw [hrange']
  refine ⟨⟨lo, hi, hrange', lo + e.zipSeed % (hi + 1 - lo),
    Nat.le_add_right _ _, by omega, hpost⟩, rfl⟩

/-- Witness for C8 at a concrete entropy whose address coin is heads. -/
theorem record_address_postalcode_valid_w :
    postcodeValidFor "35004" "AL" ∧
    "35004" = postalcode_in_state "AL" entropy1.zipSeed :=
  record_address_postalcode_valid entropy1
    { street_address := "", city := "", state := "AL", postalcode := "35004" }
    (by decide)

/-- C2: with `SNOWFLAKE_PRIVATE_KEY` unset the preview script exits non-zero
with a diagnostic containing "SNOWFLAKE_PRIVATE_KEY not set"; with it set to
any value it exits 0 and prints the escaped-string preview of the first 60
characters of that value. -/
theorem load_key_preview (s : String) :
    (loadKeyRun none).exitCode ≠ 0 ∧
    occursIn "SNOWFLAKE_PRIVATE_KEY not set".data (loadKeyRun none).stderr ∧
    (loadKeyRun (some s)).exitCode = 0 ∧
    (loadKeyRun (some s)).stdout
      = "First 60 chars: ".data ++ pyRepr (keyPreviewSlice s) ++ ['\n'] ∧
    (keyPreviewSlice s).data = s.data.take 60 :=
  ⟨Nat.one_ne_zero, ⟨[], ['\n'], rfl⟩, rfl, rfl, rfl⟩

/-- C10: a key value shorter than 60 characters is previewed whole — the
60-character slice is total and never fails or pads. -/
theorem load_key_short_value (s : String) (h : s.data.length < 60) :
    keyPreviewSlice s = s ∧
    (loadKeyRun (some s)).exitCode = 0 ∧
    (loadKeyRun (some s)).stdout
      = "First 60 chars: ".data ++ pyRepr s ++ ['\n'] := by
  have hs : keyPreviewSlice s = s := by
    unfold keyPreviewSlice
    rw [List.take_of_length_le (le_of_lt h)]
  refine ⟨hs, rfl, ?_⟩
  show "First 60 chars: ".data ++ pyRepr (keyPreviewSlice s) ++ ['\n']
      = "First 60 chars: ".data ++ pyRepr s ++ ['\n']
  rw [hs]

/-- Witness for C10 at the concrete two-character key `"ab"`. -/
theorem load_key_short_value_w :
    keyPreviewSlice "ab" = "ab" ∧
    (loadKeyRun (some "ab")).exitCode = 0 ∧
    (loadKeyRun (some "ab")).stdout
      = "First 60 chars: ".data ++ pyRepr "ab" ++ ['\n'] :=
  load_key_short_value "ab" (by decide)
